import Mathlib

/-!
Shallow embedding of `src/deepseek_summarizer.py` (AxiosBriefRSS):
a single-pass batch job that loads a day's JSON article file, composes a
fixed instruction prompt with the serialized articles, performs one
chat-completion API call, and writes the returned text to a date-named
markdown file.

Modelling conventions:
* Python `None`-able values become `Option`.
* The process environment is a function `String → Option String`.
* The filesystem is a structure `FS` of existing directories and files
  (an association list from path to contents).
* The article input files are modelled post-`json.load`: a map from path
  to `Option (Option Json)` — outer `none` means the file does not exist,
  `some none` means the file exists but `json.load` raises, and
  `some (some j)` means the file parses to the JSON value `j`.
* The network is a function `respond : ApiCall → Option (List String)`:
  `none` models a transport/API exception, `some cs` a response whose
  choices carry the message texts `cs`.  The list of `ApiCall`s actually
  issued is returned so that "no network call attempted" is statable.
-/

namespace AxiosBriefRSS

/-- A JSON value, as produced by Python's `json.load`.  Numbers are modelled
as integers; the program treats article data as opaque, so this choice only
fixes the serializer on numeric leaves. -/
inductive Json where
  | null : Json
  | bool : Bool → Json
  | num : Int → Json
  | str : String → Json
  | arr : List Json → Json
  | obj : List (String × Json) → Json
deriving Repr, Inhabited

/-- Python `len()` applied to a parsed JSON value, as in
`logger.info(... {len(articles)} ...)` inside `load_articles`:
defined for strings, arrays and objects; raises `TypeError`
(modelled as `none`) for `null`, booleans and numbers. -/
def jsonLen : Json → Option Nat
  | .str s => some s.length
  | .arr xs => some xs.length
  | .obj fields => some fields.length
  | _ => none

/-- Python truthiness of a parsed JSON value, as tested by
`if not articles:` in `generate_daily_brief`. -/
def jsonTruthy : Json → Bool
  | .null => false
  | .bool b => b
  | .num n => n != 0
  | .str s => s != ""
  | .arr xs => !xs.isEmpty
  | .obj fields => !fields.isEmpty

/-- Lower-case hexadecimal digit. -/
def hexDigit (n : Nat) : Char :=
  if n < 10 then Char.ofNat (48 + n) else Char.ofNat (87 + n)

/-- Four-digit hexadecimal rendering used in `\uXXXX` escapes. -/
def hex4 (n : Nat) : String :=
  String.mk [hexDigit (n / 4096 % 16), hexDigit (n / 256 % 16),
             hexDigit (n / 16 % 16), hexDigit (n % 16)]

/-- Escaping of one character in a JSON string literal under
`json.dumps(..., ensure_ascii=False)`: quote, backslash and control
characters are escaped, everything else (including non-ASCII) is kept
literally. -/
def escapeChar (c : Char) : String :=
  if c = '"' then "\\\""
  else if c = '\\' then "\\\\"
  else if c = '\n' then "\\n"
  else if c = '\r' then "\\r"
  else if c = '\t' then "\\t"
  else if c = Char.ofNat 8 then "\\b"
  else if c = Char.ofNat 12 then "\\f"
  else if c.toNat < 32 then "\\u" ++ hex4 c.toNat
  else String.singleton c

/-- A JSON string literal under `ensure_ascii=False`. -/
def quoteString (s : String) : String :=
  "\"" ++ String.join (s.toList.map escapeChar) ++ "\""

/-- `n` spaces. -/
def indentStr (n : Nat) : String := String.mk (List.replicate n ' ')

/-- `json.dumps(x, ensure_ascii=False, indent=2)` at nesting depth `d`:
containers open on their own line, items are indented two further spaces
and separated by `",\n"`, and the closing bracket returns to depth `d`. -/
def dumpsAt (d : Nat) : Json → String
  | .null => "null"
  | .bool b => if b then "true" else "false"
  | .num n => toString n
  | .str s => quoteString s
  | .arr [] => "[]"
  | .arr (x :: xs) =>
      "[\n" ++ String.intercalate ",\n"
        (((x :: xs).attach).map fun y => indentStr (2 * (d + 1)) ++ dumpsAt (d + 1) y.1)
      ++ "\n" ++ indentStr (2 * d) ++ "]"
  | .obj [] => "\x7b\x7d"
  | .obj (kv :: kvs) =>
      "\x7b\n" ++ String.intercalate ",\n"
        (((kv :: kvs).attach).map fun y =>
          indentStr (2 * (d + 1)) ++ quoteString y.1.1 ++ ": " ++ dumpsAt (d + 1) y.1.2)
      ++ "\n" ++ indentStr (2 * d) ++ "\x7d"
termination_by j => sizeOf j
decreasing_by
  all_goals simp_wf
  · have h1 := List.sizeOf_lt_of_mem y.2
    simp only [List.cons.sizeOf_spec] at h1
    omega
  · obtain ⟨⟨k, v⟩, hm⟩ := y
    have h1 := List.sizeOf_lt_of_mem hm
    simp only [List.cons.sizeOf_spec, Prod.mk.sizeOf_spec] at h1 ⊢
    omega

/-- `json.dumps(x, ensure_ascii=False, indent=2)` as used in
`call_deepseek_api`. -/
def dumps (j : Json) : String := dumpsAt 0 j

/-- Constant `ARTICLES_DIR`. -/
def ARTICLES_DIR : String := "articles"

/-- Constant `DAILYBRIEF_DIR`. -/
def DAILYBRIEF_DIR : String := "dailybrief"

/-- Constant `DEFAULT_MODEL`. -/
def DEFAULT_MODEL : String := "deepseek-chat"

/-- Constant `DEEPSEEK_API_URL`. -/
def DEEPSEEK_API_URL : String := "https://api.deepseek.com"

/-- The constant instruction template `DEFAULT_PROMPT` (a Python
triple-quoted string, hence the trailing newline). -/
def DEFAULT_PROMPT : String :=
  "作为资深投资顾问以及新闻编辑，请将以下JSON格式的新闻条目整合为每日简报。\n## 要求\n1. 首段总结当日核心事件\n2. 每个新闻单独段落，包含：\n   - 关键事实\n   - 影响分析\n   - 相关背景\n3. 结尾添加投资决策建议及风险提示\n4. 使用Markdown格式，注意排版美观、专业、易于阅读\n5. 对所有内容生成双语版本（中/英），以便对比阅读。注意格式美观、专业、易于阅读\n\n## 注意\n输出仅返回markdown内容（不要包含```markdown等符号），请勿返回任何其他内容。你的内容将直接用于展示。\n"

/-- Resolution of an optional `date_str` argument against today's date in
US/Eastern, per the `if not date_str:` pattern in `load_articles` and
`save_daily_brief`: `None` or the empty string fall back to today. -/
def resolveDate (date_str : Option String) (today : String) : String :=
  match date_str with
  | none => today
  | some s => if s == "" then today else s

/-- `os.path.join(ARTICLES_DIR, f"{date_str}.json")`. -/
def articlePath (date_str : String) : String :=
  ARTICLES_DIR ++ "/" ++ date_str ++ ".json"

/-- `os.path.join(DAILYBRIEF_DIR, f"{date_str}.md")`. -/
def briefPath (date_str : String) : String :=
  DAILYBRIEF_DIR ++ "/" ++ date_str ++ ".md"

/-- The output-side filesystem: the set of existing directories and the
files (path, contents), as touched by `ensure_dir_exists` and
`save_daily_brief`. -/
structure FS where
  dirs : List String
  files : List (String × String)
deriving Repr

/-- Contents of the file at `p`, if present. -/
def FS.getFile (fs : FS) (p : String) : Option String :=
  (fs.files.find? fun kv => kv.1 == p).map (·.2)

/-- `open(p, "w").write(c)`: create or fully overwrite the file at `p`. -/
def FS.writeFile (fs : FS) (p c : String) : FS :=
  { fs with files := (p, c) :: fs.files.filter fun kv => !(kv.1 == p) }

/-- `ensure_dir_exists(directory)`: `os.makedirs` only when the directory
does not already exist. -/
def ensure_dir_exists (fs : FS) (directory : String) : FS :=
  if directory ∈ fs.dirs then fs else { fs with dirs := directory :: fs.dirs }

/-- `load_articles(date_str)`.  `articleFiles` maps an article file path to
`none` (file absent — the `os.path.exists` check fails, `None` returned),
`some none` (file present but `json.load` raises — caught, `None` returned)
or `some (some j)` (file parses to `j`).  After a successful parse the
logging line evaluates `len(articles)`, which raises `TypeError` for
unsized values — also caught, returning `None`; otherwise the parsed value
is returned unchanged. -/
def load_articles (articleFiles : String → Option (Option Json))
    (date_str : Option String) (today : String) : Option Json :=
  let d := resolveDate date_str today
  let filepath := articlePath d
  match articleFiles filepath with
  | none => none
  | some none => none
  | some (some articles) =>
      match jsonLen articles with
      | none => none
      | some _ => some articles

/-- One request to the chat-completion endpoint, as assembled by
`call_deepseek_api`: base URL, model id, message list (role, content),
temperature (0.6, kept in tenths to stay in exact arithmetic),
max output tokens, and the streaming flag. -/
structure ApiCall where
  base_url : String
  model : String
  messages : List (String × String)
  temperature_tenths : Nat
  max_tokens : Nat
  stream : Bool
deriving Repr, DecidableEq

/-- The single chat-completion request assembled inside
`call_deepseek_api`: one user-role message whose content is the prompt
followed by `"\n\n输入数据:\n"` and the indented JSON serialization of the
articles; the model id is `SUMMARY_MODEL` from the environment when set,
else `DEFAULT_MODEL`; temperature 0.6, `max_tokens=4096`, `stream=False`. -/
def buildRequest (env : String → Option String) (prompt : String)
    (articles : Json) : ApiCall :=
  { base_url := DEEPSEEK_API_URL
    model := (env "SUMMARY_MODEL").getD DEFAULT_MODEL
    messages := [("user", prompt ++ "\n\n输入数据:\n" ++ dumps articles)]
    temperature_tenths := 6
    max_tokens := 4096
    stream := false }

/-- The credential-resolution pattern duplicated at the top of both
`call_deepseek_api` and `generate_daily_brief`: an explicit `api_key`
(even the empty string — the code only tests `api_key is None`) is used
as-is; otherwise `DEEPSEEK_API_KEY` is read from the environment, where an
absent or empty (falsy) value means no credential. -/
def resolveKey (env : String → Option String) : Option String → Option String
  | some k => some k
  | none =>
      match env "DEEPSEEK_API_KEY" with
      | none => none
      | some k => if k == "" then none else some k

/-- `call_deepseek_api(api_key, prompt, articles)`.  On an unresolved
credential the function logs and returns with no call; on a resolved key,
exactly one request is issued; `respond` yields the choices' message texts
(`none` models a raised transport/API exception).  Returns the extracted
first choice text (or `none`) together with the list of requests actually
issued. -/
def call_deepseek_api (env : String → Option String)
    (respond : ApiCall → Option (List String))
    (api_key : Option String) (prompt : String) (articles : Json) :
    Option String × List ApiCall :=
  match resolveKey env api_key with
  | none => (none, [])
  | some _ =>
      let call := buildRequest env prompt articles
      match respond call with
      | none => (none, [call])
      | some choices =>
          match choices with
          | [] => (none, [call])
          | c :: _ => (some c, [call])

/-- `save_daily_brief(content, date_str)`: resolve the date, ensure the
brief directory exists, then open the date-named markdown file in `"w"`
mode and write `content`.  Returns the updated filesystem and the file
path (the `except` branch is unreachable in this model, where writes
succeed). -/
def save_daily_brief (fs : FS) (content : String) (date_str : Option String)
    (today : String) : FS × Option String :=
  let d := resolveDate date_str today
  let fs1 := ensure_dir_exists fs DAILYBRIEF_DIR
  let filepath := briefPath d
  (fs1.writeFile filepath content, some filepath)

/-- The ambient state threaded through the orchestrator: the process
environment, the parsed article input files, the output filesystem and the
network. -/
structure World where
  env : String → Option String
  articleFiles : String → Option (Option Json)
  fs : FS
  respond : ApiCall → Option (List String)

/-- Outcome of `generate_daily_brief`: its boolean result, the output
filesystem afterwards, and the API requests issued. -/
structure GenResult where
  success : Bool
  fs : FS
  calls : List ApiCall

/-- `generate_daily_brief(api_key, date_str)`: resolve the credential
(aborting, with no call, when `api_key` is `None` and `DEEPSEEK_API_KEY`
is unset or empty), load the articles (aborting when the loader returns
`None` or a falsy value such as an empty array), call the API with
`DEFAULT_PROMPT`, and on a truthy summary save the brief. -/
def generate_daily_brief (w : World) (api_key : Option String)
    (date_str : Option String) (today : String) : GenResult :=
  match resolveKey w.env api_key with
  | none => { success := false, fs := w.fs, calls := [] }
  | some key =>
      match load_articles w.articleFiles date_str today with
      | none => { success := false, fs := w.fs, calls := [] }
      | some articles =>
          if !jsonTruthy articles then
            { success := false, fs := w.fs, calls := [] }
          else
            let res :=
              call_deepseek_api w.env w.respond (some key) DEFAULT_PROMPT articles
            match res.1 with
            | none => { success := false, fs := w.fs, calls := res.2 }
            | some summary =>
                if summary == "" then
                  { success := false, fs := w.fs, calls := res.2 }
                else
                  let fsPath := save_daily_brief w.fs summary date_str today
                  { success := fsPath.2.isSome, fs := fsPath.1, calls := res.2 }

/-- `os.environ[k] = v`. -/
def setEnv (env : String → Option String) (k v : String) :
    String → Option String :=
  fun x => if x == k then some v else env x

/-- The `if args.flag: os.environ[var] = args.flag` pattern in `main`:
a truthy (present and non-empty) flag value is written into the
environment variable `var`; a falsy one leaves the environment alone. -/
def applyOverride (env : String → Option String) (var : String) :
    Option String → (String → Option String)
  | some v => if v == "" then env else setEnv env var v
  | none => env

/-- The parsed command line: `--api-key`, `--date`, `--model`
(each `None` when the flag is absent). -/
structure Args where
  api_key : Option String
  date : Option String
  model : Option String

/-- Outcome of `main`: the process exit status, the boolean the
orchestrator reported, the final output filesystem, the final environment
and the API requests issued. -/
structure RunResult where
  exitCode : Nat
  success : Bool
  fs : FS
  env : String → Option String
  calls : List ApiCall

/-- `main()`: write a truthy `--model` into `DEEPSEEK_MODEL` and a truthy
`--api-key` into `DEEPSEEK_API_KEY`, create the brief directory, run
`generate_daily_brief(date_str=args.date)`, log the outcome and return —
the process exits with status 0 on every path. -/
def mainRun (w : World) (args : Args) (today : String) : RunResult :=
  let env1 := applyOverride w.env "DEEPSEEK_MODEL" args.model
  let env2 := applyOverride env1 "DEEPSEEK_API_KEY" args.api_key
  let fs1 := ensure_dir_exists w.fs DAILYBRIEF_DIR
  let w1 : World := { w with env := env2, fs := fs1 }
  let r := generate_daily_brief w1 none args.date today
  { exitCode := 0, success := r.success, fs := r.fs, env := env2,
    calls := r.calls }

/-! ## Helper lemmas -/

theorem getFile_writeFile_self (fs : FS) (p c : String) :
    (fs.writeFile p c).getFile p = some c := by
  simp [FS.getFile, FS.writeFile]

theorem mem_dirs_ensure_self (fs : FS) (d : String) :
    d ∈ (ensure_dir_exists fs d).dirs := by
  unfold ensure_dir_exists
  split
  · assumption
  · exact List.mem_cons_self _ _

theorem mem_dirs_ensure (fs : FS) (d x : String) (h : x ∈ fs.dirs) :
    x ∈ (ensure_dir_exists fs d).dirs := by
  unfold ensure_dir_exists
  split
  · exact h
  · exact List.mem_cons_of_mem _ h

theorem dirs_writeFile (fs : FS) (p c : String) :
    (fs.writeFile p c).dirs = fs.dirs := rfl

theorem mem_dirs_save (fs : FS) (c : String) (ds : Option String) (t x : String)
    (h : x ∈ fs.dirs) : x ∈ (save_daily_brief fs c ds t).1.dirs := by
  simp only [save_daily_brief, dirs_writeFile]
  exact mem_dirs_ensure _ _ _ h

theorem mem_dirs_gen (w : World) (k : Option String) (ds : Option String)
    (t x : String) (h : x ∈ w.fs.dirs) :
    x ∈ (generate_daily_brief w k ds t).fs.dirs := by
  unfold generate_daily_brief
  repeat' (first | split | dsimp only)
  all_goals first
    | exact h
    | exact mem_dirs_save _ _ _ _ _ h

theorem applyOverride_falsy (env : String → Option String) (var : String)
    (v : Option String) (h : v = none ∨ v = some "") :
    applyOverride env var v = env := by
  rcases h with h | h <;> subst h <;> simp [applyOverride]

theorem applyOverride_apply_ne (env : String → Option String) (var k : String)
    (v : Option String) (h : (k == var) = false) :
    applyOverride env var v k = env k := by
  cases v with
  | none => rfl
  | some s =>
      by_cases hs : s == "" <;> simp [applyOverride, hs, setEnv, h]

theorem gen_no_key (env : String → Option String)
    (articleFiles : String → Option (Option Json)) (fs : FS)
    (respond : ApiCall → Option (List String)) (ds : Option String) (t : String)
    (h : resolveKey env none = none) :
    generate_daily_brief ⟨env, articleFiles, fs, respond⟩ none ds t =
      { success := false, fs := fs, calls := [] } := by
  simp [generate_daily_brief, h]

theorem call_deepseek_api_calls_eq (env : String → Option String)
    (respond : ApiCall → Option (List String)) (key : String)
    (prompt : String) (articles : Json) :
    (call_deepseek_api env respond (some key) prompt articles).2 =
      [buildRequest env prompt articles] := by
  unfold call_deepseek_api
  cases h : respond (buildRequest env prompt articles) with
  | none => simp [h, resolveKey]
  | some choices => cases choices <;> simp [h, resolveKey]

/-! ## Claims -/

/-- C1: for every generated text `T` and every date key, `save_daily_brief`
writes exactly `T` to the date-named brief file — the file's contents equal
`T` with no transformation and no trimming — and reports the written path. -/
theorem save_daily_brief_writes_exact (fs : FS) (T : String)
    (date_str : Option String) (today : String) :
    (save_daily_brief fs T date_str today).1.getFile
        (briefPath (resolveDate date_str today)) = some T ∧
    (save_daily_brief fs T date_str today).2 =
        some (briefPath (resolveDate date_str today)) := by
  constructor
  · simp [save_daily_brief, getFile_writeFile_self]
  · rfl

/-- C2: when the input file for the resolved date parses as a JSON array of
records, `load_articles` returns exactly those records, in file order. -/
theorem load_articles_returns_array (articleFiles : String → Option (Option Json))
    (date_str : Option String) (today : String) (records : List Json)
    (h : articleFiles (articlePath (resolveDate date_str today)) =
          some (some (Json.arr records))) :
    load_articles articleFiles date_str today = some (Json.arr records) := by
  simp [load_articles, h, jsonLen]

theorem load_articles_returns_array_witness :
    load_articles
      (fun p => if p == "articles/20240101.json"
        then some (some (Json.arr [Json.str "a", Json.str "b"])) else none)
      (some "20240101") "20240102"
      = some (Json.arr [Json.str "a", Json.str "b"]) :=
  load_articles_returns_array _ _ _ _ (by rfl)

/-- C3: with a resolved key, `call_deepseek_api` issues exactly one request,
whose single user-role message is the fixed instruction template
`DEFAULT_PROMPT` followed by the indented JSON serialization of the loaded
records — so the template is a prefix of the message and the serialization
is its suffix. -/
theorem prompt_has_template_prefix_json_suffix (env : String → Option String)
    (respond : ApiCall → Option (List String)) (key : String) (articles : Json) :
    ∃ c : ApiCall,
      (call_deepseek_api env respond (some key) DEFAULT_PROMPT articles).2 = [c] ∧
      c.messages =
        [("user", DEFAULT_PROMPT ++ "\n\n输入数据:\n" ++ dumps articles)] ∧
      (∃ rest, DEFAULT_PROMPT ++ "\n\n输入数据:\n" ++ dumps articles
                 = DEFAULT_PROMPT ++ rest) ∧
      (∃ pre, DEFAULT_PROMPT ++ "\n\n输入数据:\n" ++ dumps articles
                 = pre ++ dumps articles) :=
  ⟨buildRequest env DEFAULT_PROMPT articles,
   call_deepseek_api_calls_eq env respond key DEFAULT_PROMPT articles,
   rfl,
   ⟨"\n\n输入数据:\n" ++ dumps articles, by rw [String.append_assoc]⟩,
   ⟨DEFAULT_PROMPT ++ "\n\n输入数据:\n", rfl⟩⟩

/-- C4: when the caller supplies no API credential (no flag, or a falsy
empty one) and the environment holds none (unset or empty), the run reports
failure and no request to the completion endpoint is issued. -/
theorem no_credential_fails_without_call (w : World) (args : Args) (today : String)
    (hflag : args.api_key = none ∨ args.api_key = some "")
    (henv : w.env "DEEPSEEK_API_KEY" = none ∨ w.env "DEEPSEEK_API_KEY" = some "") :
    (mainRun w args today).success = false ∧ (mainRun w args today).calls = [] := by
  have hE : applyOverride (applyOverride w.env "DEEPSEEK_MODEL" args.model)
      "DEEPSEEK_API_KEY" args.api_key "DEEPSEEK_API_KEY"
        = w.env "DEEPSEEK_API_KEY" := by
    rw [applyOverride_falsy _ _ _ hflag]
    exact applyOverride_apply_ne _ _ _ _ rfl
  have hkey : resolveKey (applyOverride (applyOverride w.env "DEEPSEEK_MODEL"
      args.model) "DEEPSEEK_API_KEY" args.api_key) none = none := by
    rcases henv with h | h <;> simp [resolveKey, hE, h]
  simp only [mainRun]
  rw [gen_no_key _ _ _ _ _ _ hkey]
  exact ⟨rfl, rfl⟩

theorem no_credential_fails_without_call_witness :
    (mainRun
        { env := fun _ => none, articleFiles := fun _ => none,
          fs := { dirs := [], files := [] }, respond := fun _ => some ["x"] }
        { api_key := none, date := none, model := none } "20240101").success = false ∧
    (mainRun
        { env := fun _ => none, articleFiles := fun _ => none,
          fs := { dirs := [], files := [] }, respond := fun _ => some ["x"] }
        { api_key := none, date := none, model := none } "20240101").calls = [] :=
  no_credential_fails_without_call _ _ _ (Or.inl rfl) (Or.inl rfl)

/-- C5: the claim says a `--model` override reaches the completion client
through the environment, making the request's model id equal the override.
The code writes the override into `DEEPSEEK_MODEL` while the client reads
`SUMMARY_MODEL`, so the override is dead: in a run invoked with
`--model "mymodel"` (and `SUMMARY_MODEL` unset) the issued request still
carries the default model id, even though `DEEPSEEK_MODEL` was set. -/
theorem model_flag_does_not_reach_request :
    ((mainRun
        { env := fun k => if k == "DEEPSEEK_API_KEY" then some "sk" else none
          articleFiles := fun p => if p == "articles/20240101.json"
            then some (some (Json.arr [Json.str "a"])) else none
          fs := { dirs := [], files := [] }
          respond := fun _ => some ["BRIEF"] }
        { api_key := none, date := some "20240101", model := some "mymodel" }
        "20240101").calls.map ApiCall.model = [DEFAULT_MODEL]) ∧
    ((mainRun
        { env := fun k => if k == "DEEPSEEK_API_KEY" then some "sk" else none
          articleFiles := fun p => if p == "articles/20240101.json"
            then some (some (Json.arr [Json.str "a"])) else none
          fs := { dirs := [], files := [] }
          respond := fun _ => some ["BRIEF"] }
        { api_key := none, date := some "20240101", model := some "mymodel" }
        "20240101").env "DEEPSEEK_MODEL" = some "mymodel") ∧
    DEFAULT_MODEL ≠ "mymodel" :=
  ⟨rfl, rfl, by decide⟩

/-- C6: for one date key, writing brief `B1` and then brief `B2` leaves the
brief file holding exactly `B2`: a write fully overwrites any prior file at
that path, and afterwards exactly one file entry exists for that path. -/
theorem save_daily_brief_overwrites (fs : FS) (B1 B2 : String)
    (date_str : Option String) (today : String) :
    ((save_daily_brief (save_daily_brief fs B1 date_str today).1
        B2 date_str today).1).getFile (briefPath (resolveDate date_str today))
      = some B2 ∧
    (((save_daily_brief (save_daily_brief fs B1 date_str today).1
        B2 date_str today).1).files.filter
          fun kv => kv.1 == briefPath (resolveDate date_str today)).map (·.2)
      = [B2] := by
  constructor
  · simp [save_daily_brief, getFile_writeFile_self]
  · simp [save_daily_brief, ensure_dir_exists, FS.writeFile, List.filter_filter]

/-- C7: the command-line entry point exits with status 0 for every world,
argument vector and date — success and every failure alike are reported
only through logging, never through the exit code. -/
theorem main_always_exits_zero (w : World) (args : Args) (today : String) :
    (mainRun w args today).exitCode = 0 := rfl

/-- C8: when the input file parses as the empty JSON array, the loader
succeeds and returns the empty collection, yet `generate_daily_brief`
reports failure, leaves the filesystem unchanged and issues no request —
an empty collection aborts the run just like a missing file. -/
theorem empty_array_loads_but_aborts (w : World) (key : String)
    (date_str : Option String) (today : String)
    (h : w.articleFiles (articlePath (resolveDate date_str today)) =
          some (some (Json.arr []))) :
    load_articles w.articleFiles date_str today = some (Json.arr []) ∧
    generate_daily_brief w (some key) date_str today =
      { success := false, fs := w.fs, calls := [] } := by
  constructor
  · simp [load_articles, h, jsonLen]
  · simp [generate_daily_brief, resolveKey, load_articles, h, jsonLen, jsonTruthy]

theorem empty_array_loads_but_aborts_witness :
    load_articles
      (fun p => if p == "articles/20240101.json"
        then some (some (Json.arr [])) else none) (some "20240101") "20240101"
      = some (Json.arr []) ∧
    generate_daily_brief
      { env := fun _ => none,
        articleFiles := fun p => if p == "articles/20240101.json"
          then some (some (Json.arr [])) else none,
        fs := { dirs := [], files := [] }, respond := fun _ => some ["x"] }
      (some "sk") (some "20240101") "20240101"
      = { success := false, fs := { dirs := [], files := [] }, calls := [] } :=
  empty_array_loads_but_aborts
    { env := fun _ => none,
      articleFiles := fun p => if p == "articles/20240101.json"
        then some (some (Json.arr [])) else none,
      fs := { dirs := [], files := [] }, respond := fun _ => some ["x"] }
    "sk" (some "20240101") "20240101" (by rfl)

/-- C9: when the input file holds a valid JSON value that is not a sized
collection — `null`, a boolean or a number — `load_articles` returns an
absent result: the parse succeeds but the post-parse `len()` in the logging
line raises, the exception is caught, and the load is reported failed. -/
theorem unsized_json_value_fails_load (articleFiles : String → Option (Option Json))
    (date_str : Option String) (today : String) (j : Json)
    (hfile : articleFiles (articlePath (resolveDate date_str today)) = some (some j))
    (hshape : j = Json.null ∨ (∃ b, j = Json.bool b) ∨ (∃ n, j = Json.num n)) :
    load_articles articleFiles date_str today = none := by
  rcases hshape with h | ⟨b, h⟩ | ⟨n, h⟩ <;> subst h <;>
    simp [load_articles, hfile, jsonLen]

theorem unsized_json_value_fails_load_witness :
    load_articles
      (fun p => if p == "articles/20240101.json"
        then some (some (Json.num 5)) else none) (some "20240101") "20240101"
      = none :=
  unsized_json_value_fails_load _ _ _ _ (by rfl)
    (Or.inr (Or.inr ⟨5, rfl⟩))

/-- C10: every invocation of the entry point ensures the brief output
directory exists before the orchestrator runs, so it is present in the
final filesystem whatever the outcome; and ensuring a directory that
already exists changes nothing (`ensure_dir_exists` is idempotent). -/
theorem brief_dir_exists_after_main (w : World) (args : Args) (today : String) :
    DAILYBRIEF_DIR ∈ (mainRun w args today).fs.dirs ∧
    ensure_dir_exists (ensure_dir_exists w.fs DAILYBRIEF_DIR) DAILYBRIEF_DIR
      = ensure_dir_exists w.fs DAILYBRIEF_DIR := by
  constructor
  · exact mem_dirs_gen _ _ _ _ _ (mem_dirs_ensure_self _ _)
  · unfold ensure_dir_exists
    split
    · rfl
    · simp_all [List.mem_cons]

end AxiosBriefRSS
